import Mathlib

/-!
Shallow embedding of src/canvas_scraper.py (the Canvas course scraper) and
proofs about its link-rewriting, download-deduplication and item-rendering
behaviour.  Pure helpers of the script become Lean functions over lists of
characters / path segments; the mutable globals (the downloaded-id set, the
filesystem, the log) become an explicit state record threaded through the
functions.  External collaborators (the canvasapi resolver, pathvalidate's
sanitize_filename, html2text) are parameters, as they are interfaces the
script consumes, not part of it.
-/

set_option maxHeartbeats 1000000

namespace CanvasScraper

/-- Render a segment-list path as a slash-separated string, as pathlib does
on posix when the path is interpolated into an f-string. -/
def renderPath (p : List String) : String :=
  String.intercalate ("/") p

/-- Parent directory of a path given as segments (pathlib's .parent). -/
def parentDir (p : List String) : List String :=
  p.dropLast

/-- Model of os.path.relpath on purely relative segment lists: strip the
common leading segments, then one parent step per remaining base segment. -/
def relPath : List String → List String → List String
  | a :: as, b :: bs =>
      if a = b then relPath as bs
      else (b :: bs).map (fun _ => "..") ++ a :: as
  | p, base => base.map (fun _ => "..") ++ p

/-- Helper for pyDedup: fold the input, keeping each element only on its
first occurrence. -/
def pyDedupAux {α : Type} [DecidableEq α] : List α → List α → List α
  | acc, [] => acc
  | acc, x :: xs => if x ∈ acc then pyDedupAux acc xs else pyDedupAux (acc ++ [x]) xs

/-- Model of Python's set() applied to a traversal: one representative per
element.  Order is first occurrence; the claims only use membership,
nodup-ness and length of the result. -/
def pyDedup {α : Type} [DecidableEq α] (l : List α) : List α :=
  pyDedupAux [] l

/-- The apostrophe character, used by the character class excluding quotes. -/
def aposCh : Char := Char.ofNat 39

/-- Case-insensitive character comparison (re.IGNORECASE semantics for the
ascii fragments the patterns contain). -/
def chIEq (a b : Char) : Bool := a.toLower == b.toLower

/-- Character class for the regex fragment matching any char except a
greater-than sign. -/
def notGtCh (c : Char) : Bool := c != '>'

/-- Character class for the regex fragment matching any char except a double
quote. -/
def notQuoteCh (c : Char) : Bool := c != '"'

/-- Character class for the regex fragment matching any char except a double
quote or an apostrophe. -/
def notQuoteAposCh (c : Char) : Bool := c != '"' && c != aposCh

/-- Character class for the dot with DOTALL: any character. -/
def anyCh (_ : Char) : Bool := true

/-- Match a literal case-insensitively at the head of the input, returning
the remaining suffix. -/
def litCI : List Char → List Char → Option (List Char)
  | [], s => some s
  | _ :: _, [] => none
  | l :: ls, c :: cs => if chIEq l c then litCI ls cs else none

/-- Match a literal exactly at the head of the input, returning the
remaining suffix. -/
def litEx : List Char → List Char → Option (List Char)
  | [], s => some s
  | _ :: _, [] => none
  | l :: ls, c :: cs => if l == c then litEx ls cs else none

/-- Backtracking: try a list of candidate suffixes in priority order and
keep the first one on which the continuation succeeds. -/
def firstSome {α : Type} : List (List Char) → (List Char → Option α) → Option α
  | [], _ => none
  | s :: rest, k =>
      match k s with
      | some a => some a
      | none => firstSome rest k

/-- Candidate resumption points for a greedy star over a one-character
class: longest run first, down to the empty match. -/
def starCandsG (cls : Char → Bool) (s : List Char) : List (List Char) :=
  let n := (s.takeWhile cls).length
  (List.range (n + 1)).map (fun j => s.drop (n - j))

/-- Candidate resumption points for a lazy star over a one-character class:
empty match first, up to the longest run. -/
def starCandsL (cls : Char → Bool) (s : List Char) : List (List Char) :=
  let n := (s.takeWhile cls).length
  (List.range (n + 1)).map (fun j => s.drop j)

/-- The text consumed between two suffix positions of the same string. -/
def seg (a b : List Char) : List Char := a.take (a.length - b.length)

/-- Tail of the file-reference scan pattern: the optional group matching a
slash, the word download or preview, then any run without quotes, as in
file_id_pattern.  When the optional group does not apply the input is
returned unconsumed. -/
def scanTail (s : List Char) : List Char :=
  match s with
  | '/' :: s1 =>
      (match litEx ("download").data s1 with
       | some s2 => s2.dropWhile notQuoteAposCh
       | none =>
           match litEx ("preview").data s1 with
           | some s2 => s2.dropWhile notQuoteAposCh
           | none => s)
  | _ => s

/-- Fuel-indexed scan loop for file_id_pattern.finditer: at each position
try to match the literal /files/ followed by at least one digit, record the
digit run (the captured group), consume the optional download/preview tail,
and continue after the match; otherwise advance one character.  One unit of
fuel is spent per step and every step consumes at least one character, so
fuel equal to the input length is always enough. -/
def scanGo : Nat → List Char → List (List Char)
  | 0, _ => []
  | _ + 1, [] => []
  | fuel + 1, c :: rest =>
      match litEx ("/files/").data (c :: rest) with
      | some s1 =>
          let ds := s1.takeWhile Char.isDigit
          if ds = [] then scanGo fuel rest
          else ds :: scanGo fuel (scanTail (s1.drop ds.length))
      | none => scanGo fuel rest

/-- All captured file-id digit runs of file_id_pattern.finditer over the
fragment, in match order and with duplicates kept. -/
def scanFileIds (s : List Char) : List (List Char) :=
  scanGo s.length s

/-- Value of int() on the digit string captured by the scan pattern. -/
def digitsToNat (l : List Char) : Nat :=
  l.foldl (fun a c => a * 10 + (c.toNat - 48)) 0

/-- One alternative of the optional download/preview tail group inside the
rewriting patterns: the keyword (case-insensitive) followed by a greedy run
without quotes, yielding the backtracking candidates after the group. -/
def optBranch (w : String) (s1 : List Char) : List (List Char) :=
  match litCI w.data s1 with
  | some s2 => starCandsG notQuoteAposCh s2
  | none => []

/-- Candidates after the optional tail group of img_pattern, which lists
preview before download; the final candidate skips the group. -/
def imgOptCands (s : List Char) : List (List Char) :=
  match s with
  | '/' :: s1 => optBranch ("preview") s1 ++ optBranch ("download") s1 ++ [s]
  | _ => [s]

/-- Candidates after the optional tail group of a_pattern, which lists
download before preview; the final candidate skips the group. -/
def aOptCands (s : List Char) : List (List Char) :=
  match s with
  | '/' :: s1 => optBranch ("download") s1 ++ optBranch ("preview") s1 ++ [s]
  | _ => [s]

/-- Anchored match of img_pattern at the given suffix.  Returns the matched
length and the three captured groups: the img opening through src=",
the leftover attribute text, and the closing quote through the end of the
tag.  Backtracking follows leftmost greedy regex semantics. -/
def imgMatchAt (idc : List Char) (s : List Char) :
    Option (Nat × List Char × List Char × List Char) :=
  match litCI ("<img").data s with
  | none => none
  | some s1 =>
      firstSome (starCandsG notGtCh s1) (fun s2 =>
        match litCI ("src=\"").data s2 with
        | none => none
        | some s3 =>
            firstSome (starCandsG notQuoteCh s3) (fun s4 =>
              match litCI (("/files/").data ++ idc) s4 with
              | none => none
              | some s5 =>
                  firstSome (imgOptCands s5) (fun s6 =>
                    firstSome (starCandsG notQuoteCh s6) (fun s7 =>
                      match litEx ("\"").data s7 with
                      | none => none
                      | some s8 =>
                          firstSome (starCandsG notGtCh s8) (fun s9 =>
                            match litEx (">").data s9 with
                            | none => none
                            | some s10 =>
                                some (s.length - s10.length,
                                  seg s s3, seg s6 s7, seg s7 s10))))))

/-- Anchored match of a_pattern at the given suffix.  Returns the matched
length and the three captured groups: the anchor opening through href",
the leftover attribute text, and the closing quote. -/
def aMatchAt (idc : List Char) (s : List Char) :
    Option (Nat × List Char × List Char × List Char) :=
  match litCI ("<a").data s with
  | none => none
  | some s1 =>
      firstSome (starCandsG notGtCh s1) (fun s2 =>
        match litCI ("href=\"").data s2 with
        | none => none
        | some s3 =>
            firstSome (starCandsG notQuoteCh s3) (fun s4 =>
              match litCI (("/files/").data ++ idc) s4 with
              | none => none
              | some s5 =>
                  firstSome (aOptCands s5) (fun s6 =>
                    firstSome (starCandsG notQuoteCh s6) (fun s7 =>
                      match litEx ("\"").data s7 with
                      | none => none
                      | some s8 =>
                          some (s.length - s8.length,
                            seg s s3, seg s6 s7, ("\"").data)))))

/-- Anchored match of link_text_pattern at the given suffix, returning the
captured anchor body (the lazy dot-star group, DOTALL). -/
def linkTextMatchAt (idc : List Char) (s : List Char) : Option (List Char) :=
  match litCI ("<a").data s with
  | none => none
  | some s1 =>
      firstSome (starCandsG notGtCh s1) (fun s2 =>
        match litCI ("href=\"").data s2 with
        | none => none
        | some s3 =>
            firstSome (starCandsG notQuoteCh s3) (fun s4 =>
              match litCI (("/files/").data ++ idc) s4 with
              | none => none
              | some s5 =>
                  firstSome (starCandsG notQuoteCh s5) (fun s6 =>
                    match litEx ("\"").data s6 with
                    | none => none
                    | some s7 =>
                        firstSome (starCandsG notGtCh s7) (fun s8 =>
                          match litEx (">").data s8 with
                          | none => none
                          | some s9 =>
                              firstSome (starCandsL anyCh s9) (fun s10 =>
                                match litCI ("</a>").data s10 with
                                | none => none
                                | some _ => some (seg s9 s10))))))

/-- Model of re.search: try the anchored matcher at every position, leftmost
match wins. -/
def searchAny {α : Type} (matchAt : List Char → Option α) : List Char → Option α
  | [] => matchAt []
  | c :: rest =>
      match matchAt (c :: rest) with
      | some a => some a
      | none => searchAny matchAt rest

/-- Fuel-indexed model of re.sub: replace every non-overlapping leftmost
match, resuming after the matched text.  All patterns used here match at
least one character, so fuel equal to the input length is always enough. -/
def subAllF (rep : List Char → Option (Nat × List Char)) : Nat → List Char → List Char
  | 0, s => s
  | _ + 1, [] => []
  | fuel + 1, c :: rest =>
      match rep (c :: rest) with
      | some (len, r) =>
          if len = 0 then r ++ c :: subAllF rep fuel rest
          else r ++ subAllF rep fuel (List.drop (len - 1) rest)
      | none => c :: subAllF rep fuel rest

/-- Replace every match of the anchored matcher in the input. -/
def subAll (rep : List Char → Option (Nat × List Char)) (s : List Char) : List Char :=
  subAllF rep s.length s

/-- Replacement step for img_pattern.sub with template group1, the relative
path, group2, group3. -/
def imgRep (idc relc : List Char) (s : List Char) : Option (Nat × List Char) :=
  match imgMatchAt idc s with
  | some (len, g1, g2, g3) => some (len, g1 ++ relc ++ g2 ++ g3)
  | none => none

/-- img_pattern.sub over the whole fragment for one file id. -/
def imgSubst (idc relc s : List Char) : List Char := subAll (imgRep idc relc) s

/-- Truth of img_pattern.search over a fragment for one file id. -/
def imgSearchB (idc s : List Char) : Bool := (searchAny (imgMatchAt idc) s).isSome

/-- Replacement step for a_pattern.sub with template group1, the relative
path, group2, group3. -/
def aRep (idc relc : List Char) (s : List Char) : Option (Nat × List Char) :=
  match aMatchAt idc s with
  | some (len, g1, g2, g3) => some (len, g1 ++ relc ++ g2 ++ g3)
  | none => none

/-- a_pattern.sub over the whole fragment for one file id. -/
def aSubst (idc relc s : List Char) : List Char := subAll (aRep idc relc) s

/-- link_text_pattern.search over a fragment: the first anchor body whose
href carries the file id. -/
def linkTextSearch (idc s : List Char) : Option (List Char) :=
  searchAny (linkTextMatchAt idc) s

/-- Log entries emitted by the script, one constructor per logger call site
relevant to the modelled functions. -/
inductive LogEntry where
  | logDebugAlready : Nat → LogEntry
  | logInfoDownloading : Nat → LogEntry
  | logErrorDownloadFailed : Nat → LogEntry
  | logWarnNameForDownloaded : Nat → LogEntry
  | logWarnNotFound : List Char → LogEntry
  | logErrorInvalidId : List Char → LogEntry
  | logErrorGeneric : List Char → LogEntry
  | logInfoItem : String → LogEntry
  | logWarnUnsupported : String → LogEntry
  | logErrorItemNotFound : String → LogEntry
  | logErrorItemForbidden : String → LogEntry
  | logErrorItemGeneric : String → LogEntry
deriving DecidableEq

/-- Observable state of a run: the global downloaded-id set
DOWNLOADED_FILE_IDS_GLOBAL, the files written by successful downloads, the
directories created, the ids for which canvas_file_obj.download was called,
the entries of download_canvas_file_object (the asset fetcher), and the log. -/
structure ScrState where
  downloadedIds : List Nat
  fsWritten : List (List String)
  dirsCreated : List (List String)
  downloadCalls : List Nat
  fetcherCalls : List Nat
  logs : List LogEntry
deriving DecidableEq

/-- The empty starting state of a run. -/
def initState : ScrState :=
  { downloadedIds := [], fsWritten := [], dirsCreated := [],
    downloadCalls := [], fetcherCalls := [], logs := [] }

/-- A canvasapi File handle: remote id, display name, and whether its
download call succeeds (the external network outcome). -/
structure CanvasFile where
  id : Nat
  display_name : String
  downloadOk : Bool
deriving DecidableEq

/-- Outcome of course.get_file: a file handle, ResourceDoesNotExist,
Forbidden, or any other exception. -/
inductive ResolveResult where
  | found : CanvasFile → ResolveResult
  | notFound : ResolveResult
  | forbidden : ResolveResult
  | otherErr : ResolveResult
deriving DecidableEq

/-- External collaborators consumed by the fetch and rewrite functions:
pathvalidate's sanitize_filename, html2text.html2text, and the
course.get_file resolver. -/
structure ExtractEnv where
  sanitize : String → String
  conv : String → String
  getFile : Nat → ResolveResult

/-- Model of str.strip(): drop whitespace from both ends. -/
def pyStrip (s : String) : String :=
  String.mk (((s.data.dropWhile Char.isWhitespace).reverse.dropWhile
    Char.isWhitespace).reverse)

/-- Model of download_canvas_file_object: if the file id is already in the
global set, return the path it would have in the given target directory
without any download; otherwise sanitize the display name, attempt the
download, record the id only on success, and return none on failure. -/
def download_canvas_file_object (env : ExtractEnv) (canvas_file_obj : CanvasFile)
    (target_dir : List String) (st : ScrState) :
    Option (List String) × ScrState :=
  let st0 := { st with fetcherCalls := st.fetcherCalls ++ [canvas_file_obj.id] }
  if canvas_file_obj.id ∈ st0.downloadedIds then
    (some (target_dir ++ [env.sanitize canvas_file_obj.display_name]),
     { st0 with logs := st0.logs ++ [LogEntry.logDebugAlready canvas_file_obj.id] })
  else
    let sanitized_filename_str := env.sanitize canvas_file_obj.display_name
    let file_path := target_dir ++ [sanitized_filename_str]
    if canvas_file_obj.downloadOk then
      (some file_path,
       { st0 with
           logs := st0.logs ++ [LogEntry.logInfoDownloading canvas_file_obj.id],
           downloadCalls := st0.downloadCalls ++ [canvas_file_obj.id],
           fsWritten := st0.fsWritten ++ [file_path],
           downloadedIds := st0.downloadedIds ++ [canvas_file_obj.id] })
    else
      (none,
       { st0 with
           logs := st0.logs ++ [LogEntry.logInfoDownloading canvas_file_obj.id,
                                LogEntry.logErrorDownloadFailed canvas_file_obj.id],
           downloadCalls := st0.downloadCalls ++ [canvas_file_obj.id] })

/-- Shared rewrite step for one discovered file id once its local path is
known: compute the path relative to the parent of the module readme, run
img_pattern.sub, and when img_pattern does not match the original fragment
also run a_pattern.sub and append the markdown bullet whose label is the
anchor body converted by html2text and stripped, falling back to the
sanitized display name. -/
def rewriteForId (env : ExtractEnv) (html_content : String)
    (module_readme_path : List String) (canvas_file_obj : CanvasFile)
    (idc : List Char) (local_file_path : List String)
    (mh : List Char) (links : List String) : List Char × List String :=
  let relative_path := renderPath (relPath local_file_path (parentDir module_readme_path))
  let mh1 := imgSubst idc relative_path.data mh
  if imgSearchB idc html_content.data then (mh1, links)
  else
    let lt0 := env.sanitize canvas_file_obj.display_name
    let link_text :=
      match linkTextSearch idc html_content.data with
      | some inner =>
          let t := pyStrip (env.conv (String.mk inner))
          if t = "" then lt0 else t
      | none => lt0
    let mh2 := aSubst idc relative_path.data mh1
    (mh2, links ++ ["* [" ++ link_text ++ "](" ++ relative_path ++ ")"])

/-- Loop body of extract_and_download_embedded_files for one distinct file
id: when the id is already in the global set, resolve the handle only to
recover the name (a missing handle logs a warning and skips); otherwise
resolve and download, skipping on failure; then rewrite.  Resolver failures
other than ResourceDoesNotExist fall to the generic handler and log an
error. -/
def processFileId (env : ExtractEnv) (html_content : String)
    (files_subdir : List String) (module_readme_path : List String)
    (acc : (List Char × List String) × ScrState) (idc : List Char) :
    (List Char × List String) × ScrState :=
  let mh := acc.1.1
  let links := acc.1.2
  let st := acc.2
  let file_id_int := digitsToNat idc
  if file_id_int ∈ st.downloadedIds then
    match env.getFile file_id_int with
    | ResolveResult.notFound =>
        ((mh, links),
         { st with logs := st.logs ++ [LogEntry.logWarnNameForDownloaded file_id_int] })
    | ResolveResult.found canvas_file_obj =>
        let sanitized_filename_str := env.sanitize canvas_file_obj.display_name
        let local_file_path := files_subdir ++ [sanitized_filename_str]
        (rewriteForId env html_content module_readme_path canvas_file_obj idc
          local_file_path mh links, st)
    | _ =>
        ((mh, links), { st with logs := st.logs ++ [LogEntry.logErrorGeneric idc] })
  else
    match env.getFile file_id_int with
    | ResolveResult.notFound =>
        ((mh, links), { st with logs := st.logs ++ [LogEntry.logWarnNotFound idc] })
    | ResolveResult.found canvas_file_obj =>
        let dl := download_canvas_file_object env canvas_file_obj files_subdir st
        (match dl.1 with
         | none => ((mh, links), dl.2)
         | some local_file_path =>
             (rewriteForId env html_content module_readme_path canvas_file_obj idc
               local_file_path mh links, dl.2))
    | _ =>
        ((mh, links), { st with logs := st.logs ++ [LogEntry.logErrorGeneric idc] })

/-- Model of extract_and_download_embedded_files: an empty fragment returns
unchanged with an empty list and no state change; otherwise the files
subdirectory is created, the set of distinct scanned ids is processed in
order, and the collected markdown links are deduplicated as a set before
being returned. -/
def extract_and_download_embedded_files (env : ExtractEnv) (html_content : String)
    (files_subdir : List String) (module_readme_path : List String)
    (st : ScrState) : (String × List String) × ScrState :=
  if html_content = "" then ((html_content, []), st)
  else
    let st1 := { st with dirsCreated := st.dirsCreated ++ [files_subdir] }
    let found_file_ids := pyDedup (scanFileIds html_content.data)
    let r := found_file_ids.foldl
      (processFileId env html_content files_subdir module_readme_path)
      ((html_content.data, []), st1)
    ((String.mk r.1.1, pyDedup r.1.2), r.2)

/-- Model of convert_html_to_markdown: empty input short-circuits to the
empty string, otherwise the configured html2text handle converts. -/
def convert_html_to_markdown (convMd : String → String) (html_content : String) : String :=
  if html_content = "" then "" else convMd html_content

/-- A single apostrophe, as it appears inside the notice strings. -/
def sq : String := String.singleton aposCh

/-- The in-document notice for an item whose resource was not found. -/
def notFoundNotice (title : String) : String :=
  "*Item " ++ sq ++ title ++ sq ++ " could not be retrieved (Resource not found).*\n"

/-- The in-document notice for an item whose access was forbidden. -/
def forbiddenNotice (title : String) : String :=
  "*Item " ++ sq ++ title ++ sq ++ " could not be retrieved (Access forbidden).*\n"

/-- The in-document notice for an item whose processing failed with any
other exception. -/
def genericNotice (title : String) : String :=
  "*An error occurred while processing item " ++ sq ++ title ++ sq ++ ".*\n"

/-- A Canvas page as consumed by the renderer: its HTML body. -/
structure PageData where
  body : String

/-- A Canvas assignment as consumed by the renderer: its HTML description
and, when present, the already-formatted due date and points lines (the
formatting itself is external strftime and number rendering). -/
structure AssignmentData where
  description : String
  dueRendered : Option String
  pointsRendered : Option String

/-- Outcome of a remote content fetch: a value, ResourceDoesNotExist,
Forbidden, or any other exception. -/
inductive Fetched (α : Type) where
  | ok : α → Fetched α
  | errNotFound : Fetched α
  | errForbidden : Fetched α
  | errOther : Fetched α

/-- A module item as consumed by process_module_item.  The source reads the
attribute item.type, spelled itype here. -/
structure ModuleItemM where
  itype : String
  title : String
  page_url : String
  content_id : Nat
  external_url : String
  html_url : Option String

/-- External collaborators of the item renderer: the extract environment,
the html2text handle of convert_html_to_markdown, course.get_page and
course.get_assignment. -/
structure ItemEnv where
  ex : ExtractEnv
  convMd : String → String
  getPage : String → Fetched PageData
  getAssignment : Nat → Fetched AssignmentData

/-- Body of the try block of process_module_item: one-shot dispatch on the
item type, producing the markdown for the item, with NotFound and Forbidden
from the content fetch caught and converted into in-document notices, and
any other fetch failure caught by the generic handler. -/
def process_item_body (env : ItemEnv) (item : ModuleItemM)
    (files_subdir module_readme_path : List String) (st : ScrState) :
    String × ScrState :=
  if item.itype = "Page" then
    let head := "## " ++ item.title ++ "\n\n"
    match env.getPage item.page_url with
    | Fetched.ok page =>
        if page.body = "" then
          (head ++ "*(This page has no content)*\n", st)
        else
          let r := extract_and_download_embedded_files env.ex page.body
            files_subdir module_readme_path st
          let md := head ++ convert_html_to_markdown env.convMd r.1.1 ++
            (if r.1.2 ≠ [] then
               "\n\n**Referenced Files:**\n" ++ String.intercalate ("\n") r.1.2
             else "")
          (md, r.2)
    | Fetched.errNotFound =>
        (head ++ notFoundNotice item.title,
         { st with logs := st.logs ++ [LogEntry.logErrorItemNotFound item.title] })
    | Fetched.errForbidden =>
        (head ++ forbiddenNotice item.title,
         { st with logs := st.logs ++ [LogEntry.logErrorItemForbidden item.title] })
    | Fetched.errOther =>
        (head ++ genericNotice item.title,
         { st with logs := st.logs ++ [LogEntry.logErrorItemGeneric item.title] })
  else if item.itype = "File" then
    match env.ex.getFile item.content_id with
    | ResolveResult.found canvas_file_obj =>
        let dl := download_canvas_file_object env.ex canvas_file_obj files_subdir st
        (match dl.1 with
         | some local_file_path =>
             let relative_file_path :=
               renderPath (relPath local_file_path (parentDir module_readme_path))
             ("* **File:** [" ++ canvas_file_obj.display_name ++ "](" ++
                relative_file_path ++ ")\n", dl.2)
         | none => ("", dl.2))
    | ResolveResult.notFound =>
        (notFoundNotice item.title,
         { st with logs := st.logs ++ [LogEntry.logErrorItemNotFound item.title] })
    | ResolveResult.forbidden =>
        (forbiddenNotice item.title,
         { st with logs := st.logs ++ [LogEntry.logErrorItemForbidden item.title] })
    | ResolveResult.otherErr =>
        (genericNotice item.title,
         { st with logs := st.logs ++ [LogEntry.logErrorItemGeneric item.title] })
  else if item.itype = "ExternalUrl" then
    ("* **External URL:** [" ++ item.title ++ "](" ++ item.external_url ++ ")\n", st)
  else if item.itype = "SubHeader" then
    ("### " ++ item.title ++ "\n\n", st)
  else if item.itype = "Assignment" then
    let head := "## Assignment: " ++ item.title ++ "\n\n"
    match env.getAssignment item.content_id with
    | Fetched.ok assignment =>
        let md1 :=
          if assignment.description = "" then
            let r := ((("" : String), ([] : List String)), st)
            (head ++ "*(This assignment has no description)*\n", r.2)
          else
            let r := extract_and_download_embedded_files env.ex assignment.description
              files_subdir module_readme_path st
            (head ++ convert_html_to_markdown env.convMd r.1.1 ++
              (if r.1.2 ≠ [] then
                 "\n\n**Referenced Files:**\n" ++ String.intercalate ("\n") r.1.2
               else ""), r.2)
        let withDue := md1.1 ++
          (match assignment.dueRendered with
           | some d => "\n*Due: " ++ d ++ "*\n"
           | none => "")
        let withPoints := withDue ++
          (match assignment.pointsRendered with
           | some p => "*Points: " ++ p ++ "*\n"
           | none => "")
        (withPoints, md1.2)
    | Fetched.errNotFound =>
        (head ++ notFoundNotice item.title,
         { st with logs := st.logs ++ [LogEntry.logErrorItemNotFound item.title] })
    | Fetched.errForbidden =>
        (head ++ forbiddenNotice item.title,
         { st with logs := st.logs ++ [LogEntry.logErrorItemForbidden item.title] })
    | Fetched.errOther =>
        (head ++ genericNotice item.title,
         { st with logs := st.logs ++ [LogEntry.logErrorItemGeneric item.title] })
  else if item.itype = "Discussion" then
    let head := "## Discussion: " ++ item.title ++ "\n\n"
    (head ++
      (match item.html_url with
       | some u => "*Link to discussion on Canvas: [" ++ item.title ++ "](" ++ u ++ ")*\n"
       | none => "*(Link not available, access through Canvas module)*\n"), st)
  else if item.itype = "Quiz" then
    let head := "## Quiz: " ++ item.title ++ "\n\n"
    (head ++
      (match item.html_url with
       | some u => "*Link to quiz on Canvas: [" ++ item.title ++ "](" ++ u ++ ")*\n"
       | none => "*(Link not available, access through Canvas module)*\n"), st)
  else
    ("* **" ++ item.itype ++ ":** " ++ item.title ++ " " ++
      (match item.html_url with
       | some u => " ([View on Canvas](" ++ u ++ "))"
       | none => "") ++ "\n",
     { st with logs := st.logs ++ [LogEntry.logWarnUnsupported item.itype] })

/-- Model of process_module_item: log the item, create the _files
subdirectory of the module, render the item body with all fetch failures
caught locally, and append the separator to whatever was produced. -/
def process_module_item (env : ItemEnv) (item : ModuleItemM)
    (module_path : List String) (st : ScrState) : String × ScrState :=
  let files_subdir := module_path ++ ["_files"]
  let st1 := { st with
    logs := st.logs ++ [LogEntry.logInfoItem item.title],
    dirsCreated := st.dirsCreated ++ [files_subdir] }
  let module_readme_path := module_path ++ ["README.md"]
  let r := process_item_body env item files_subdir module_readme_path st1
  (r.1 ++ "\n---\n\n", r.2)

/-- One state-affecting operation of a run, for run-level invariants: a link
rewrite of a fragment, a direct asset fetch, or a whole item rendering. -/
inductive ScrOp where
  | opExtract : ExtractEnv → String → List String → List String → ScrOp
  | opFetch : ExtractEnv → CanvasFile → List String → ScrOp
  | opItem : ItemEnv → ModuleItemM → List String → ScrOp

/-- Apply one operation to the run state. -/
def applyOp (st : ScrState) : ScrOp → ScrState
  | ScrOp.opExtract env html fsd rd =>
      (extract_and_download_embedded_files env html fsd rd st).2
  | ScrOp.opFetch env f tgt => (download_canvas_file_object env f tgt st).2
  | ScrOp.opItem env item mp => (process_module_item env item mp st).2

/-- Run a sequence of operations from a starting state. -/
def runOps (ops : List ScrOp) (st : ScrState) : ScrState := ops.foldl applyOp st

/-- A concrete environment for witnesses: identity sanitizer and converter,
and a resolver knowing exactly file 42 named f.pdf whose download succeeds. -/
def envId : ExtractEnv :=
  { sanitize := fun s => s, conv := fun s => s,
    getFile := fun n =>
      if n = 42 then ResolveResult.found ⟨42, "f.pdf", true⟩
      else ResolveResult.notFound }

section Helpers

/-- Appending one fresh element preserves nodup-ness. -/
theorem nodup_append_singleton {α : Type} {l : List α} {a : α}
    (h : l.Nodup) (ha : a ∉ l) : (l ++ [a]).Nodup := by
  rw [List.nodup_append]
  refine ⟨h, List.nodup_singleton a, ?_⟩
  intro x hx hxa
  rw [List.mem_singleton] at hxa
  exact ha (hxa ▸ hx)

/-- The dedup accumulator only ever extends its accumulator. -/
theorem pyDedupAux_nodup {α : Type} [DecidableEq α] :
    ∀ (l acc : List α), acc.Nodup → (pyDedupAux acc l).Nodup := by
  intro l
  induction l with
  | nil => intro acc h; simpa [pyDedupAux] using h
  | cons x xs ih =>
      intro acc h
      rw [pyDedupAux]
      by_cases hx : x ∈ acc
      · simpa [hx] using ih acc h
      · simpa [hx] using ih (acc ++ [x]) (nodup_append_singleton h hx)

/-- The set-style dedup returns a list without duplicates. -/
theorem pyDedup_nodup {α : Type} [DecidableEq α] (l : List α) :
    (pyDedup l).Nodup :=
  pyDedupAux_nodup l [] List.nodup_nil

/-- Dedup never lengthens the list. -/
theorem pyDedupAux_length {α : Type} [DecidableEq α] :
    ∀ (l acc : List α), (pyDedupAux acc l).length ≤ acc.length + l.length := by
  intro l
  induction l with
  | nil => intro acc; simp [pyDedupAux]
  | cons x xs ih =>
      intro acc
      rw [pyDedupAux]
      by_cases hx : x ∈ acc
      · simp only [hx, if_true]
        calc (pyDedupAux acc xs).length ≤ acc.length + xs.length := ih acc
          _ ≤ acc.length + (x :: xs).length := by
              simp only [List.length_cons]; omega
      · simp only [hx, if_false]
        calc (pyDedupAux (acc ++ [x]) xs).length ≤ (acc ++ [x]).length + xs.length :=
              ih (acc ++ [x])
          _ = acc.length + (x :: xs).length := by
              simp only [List.length_append, List.length_cons, List.length_nil]; omega

/-- Dedup never lengthens the list. -/
theorem pyDedup_length {α : Type} [DecidableEq α] (l : List α) :
    (pyDedup l).length ≤ l.length := by
  simpa using pyDedupAux_length l []

/-- The fetcher never touches the set of created directories. -/
theorem download_dirsCreated (env : ExtractEnv) (f : CanvasFile)
    (tgt : List String) (st : ScrState) :
    ((download_canvas_file_object env f tgt st).2).dirsCreated = st.dirsCreated := by
  simp only [download_canvas_file_object]
  split <;> [rfl; (split <;> rfl)]

/-- The per-id loop body never touches the set of created directories. -/
theorem processFileId_dirsCreated (env : ExtractEnv) (html : String)
    (fsd rd : List String) (acc : (List Char × List String) × ScrState)
    (idc : List Char) :
    (processFileId env html fsd rd acc idc).2.dirsCreated = acc.2.dirsCreated := by
  simp only [processFileId]
  split
  · split <;> rfl
  · split
    · rfl
    · split <;> simp [download_dirsCreated]
    · rfl

/-- Folding the per-id loop never touches the set of created directories. -/
theorem foldl_processFileId_dirsCreated (env : ExtractEnv) (html : String)
    (fsd rd : List String) :
    ∀ (ids : List (List Char)) (acc : (List Char × List String) × ScrState),
      (ids.foldl (processFileId env html fsd rd) acc).2.dirsCreated =
        acc.2.dirsCreated := by
  intro ids
  induction ids with
  | nil => intro acc; rfl
  | cons idc rest ih =>
      intro acc
      rw [List.foldl_cons, ih, processFileId_dirsCreated]

/-- Each loop iteration appends at most one bullet to the side list. -/
theorem processFileId_links_le (env : ExtractEnv) (html : String)
    (fsd rd : List String) (acc : (List Char × List String) × ScrState)
    (idc : List Char) :
    (processFileId env html fsd rd acc idc).1.2.length ≤ acc.1.2.length + 1 := by
  simp only [processFileId, rewriteForId]
  repeat' split
  all_goals simp [List.length_append]

/-- Over the whole loop the side list gains at most one bullet per distinct
id. -/
theorem foldl_processFileId_links_le (env : ExtractEnv) (html : String)
    (fsd rd : List String) :
    ∀ (ids : List (List Char)) (acc : (List Char × List String) × ScrState),
      (ids.foldl (processFileId env html fsd rd) acc).1.2.length ≤
        acc.1.2.length + ids.length := by
  intro ids
  induction ids with
  | nil => intro acc; simp
  | cons idc rest ih =>
      intro acc
      rw [List.foldl_cons]
      calc (rest.foldl (processFileId env html fsd rd)
              (processFileId env html fsd rd acc idc)).1.2.length
          ≤ (processFileId env html fsd rd acc idc).1.2.length + rest.length := ih _
        _ ≤ (acc.1.2.length + 1) + rest.length := by
            have := processFileId_links_le env html fsd rd acc idc
            omega
        _ = acc.1.2.length + (idc :: rest).length := by
            simp only [List.length_cons]
            omega

/-- Step behaviour of the loop body on a not-yet-downloaded id whose
resolution succeeds: the fetcher is entered exactly once, and the registry
either stays unchanged (failed download) or gains exactly the file's id. -/
theorem processFileId_step_fresh (env : ExtractEnv) (html : String)
    (fsd rd : List String) (acc : (List Char × List String) × ScrState)
    (idc : List Char) (f : CanvasFile)
    (hm : digitsToNat idc ∉ acc.2.downloadedIds)
    (hf : env.getFile (digitsToNat idc) = ResolveResult.found f) :
    (processFileId env html fsd rd acc idc).2.fetcherCalls =
      acc.2.fetcherCalls ++ [f.id] ∧
    ((processFileId env html fsd rd acc idc).2.downloadedIds = acc.2.downloadedIds ∨
     (processFileId env html fsd rd acc idc).2.downloadedIds =
       acc.2.downloadedIds ++ [f.id]) := by
  simp only [processFileId, hm, if_false, hf, download_canvas_file_object]
  by_cases hfid : f.id ∈ acc.2.downloadedIds
  · simp only [hfid, if_true]
    simp
  · simp only [hfid, if_false]
    by_cases hok : f.downloadOk = true
    · simp only [hok, if_true]
      simp
    · simp only [hok, if_false]
      simp

/-- Over the loop, with distinct fresh resolvable ids, the fetcher is
entered exactly once per id. -/
theorem foldl_processFileId_fetcher (env : ExtractEnv) (html : String)
    (fsd rd : List String) :
    ∀ (ids : List (List Char)) (acc : (List Char × List String) × ScrState),
      (ids.map digitsToNat).Nodup →
      (∀ idc ∈ ids, digitsToNat idc ∉ acc.2.downloadedIds) →
      (∀ idc ∈ ids, ∃ f : CanvasFile,
         env.getFile (digitsToNat idc) = ResolveResult.found f ∧
         f.id = digitsToNat idc) →
      (ids.foldl (processFileId env html fsd rd) acc).2.fetcherCalls.length =
        acc.2.fetcherCalls.length + ids.length := by
  intro ids
  induction ids with
  | nil => intro acc _ _ _; simp
  | cons idc rest ih =>
      intro acc hnd hfresh hres
      rw [List.foldl_cons]
      obtain ⟨f, hf, hfid⟩ := hres idc (List.mem_cons_self idc rest)
      have hm : digitsToNat idc ∉ acc.2.downloadedIds :=
        hfresh idc (List.mem_cons_self idc rest)
      obtain ⟨hfetch, hreg⟩ := processFileId_step_fresh env html fsd rd acc idc f hm hf
      have hnd' : (rest.map digitsToNat).Nodup := by
        rw [List.map_cons, List.nodup_cons] at hnd
        exact hnd.2
      have hni : digitsToNat idc ∉ rest.map digitsToNat := by
        rw [List.map_cons, List.nodup_cons] at hnd
        exact hnd.1
      have hfresh' : ∀ idc2 ∈ rest,
          digitsToNat idc2 ∉ (processFileId env html fsd rd acc idc).2.downloadedIds := by
        intro idc2 h2
        have hne2 : digitsToNat idc2 ≠ f.id := by
          rw [hfid]
          intro he
          exact hni (he ▸ List.mem_map_of_mem digitsToNat h2)
        rcases hreg with hr | hr
        · rw [hr]
          exact hfresh idc2 (List.mem_cons_of_mem idc h2)
        · rw [hr]
          intro hmm
          rcases List.mem_append.mp hmm with hmm1 | hmm2
          · exact hfresh idc2 (List.mem_cons_of_mem idc h2) hmm1
          · exact hne2 (List.mem_singleton.mp hmm2)
      have hres' : ∀ idc2 ∈ rest, ∃ f2 : CanvasFile,
          env.getFile (digitsToNat idc2) = ResolveResult.found f2 ∧
          f2.id = digitsToNat idc2 := by
        intro idc2 h2
        exact hres idc2 (List.mem_cons_of_mem idc h2)
      rw [ih _ hnd' hfresh' hres', hfetch]
      simp only [List.length_append, List.length_cons, List.length_nil]
      omega

/-- Once an id is registered, a fetcher call keeps it registered and makes
no download call for it: either it is the fetched id (early return before
the network) or a different id is downloaded. -/
theorem download_regMono (env : ExtractEnv) (f : CanvasFile) (tgt : List String)
    (st : ScrState) (i : Nat) (hi : i ∈ st.downloadedIds) :
    i ∈ (download_canvas_file_object env f tgt st).2.downloadedIds ∧
    (download_canvas_file_object env f tgt st).2.downloadCalls.count i =
      st.downloadCalls.count i := by
  by_cases hf : f.id ∈ st.downloadedIds
  · constructor
    · simp [download_canvas_file_object, hf, hi]
    · simp [download_canvas_file_object, hf]
  · have hne : f.id ≠ i := fun he => hf (he ▸ hi)
    by_cases hok : f.downloadOk = true
    · constructor
      · simp [download_canvas_file_object, hf, hok, hi]
      · simp [download_canvas_file_object, hf, hok, List.count_append,
          List.count_singleton', hne]
    · constructor
      · simp [download_canvas_file_object, hf, hok, hi]
      · simp [download_canvas_file_object, hf, hok, List.count_append,
          List.count_singleton', hne]

/-- The fetcher preserves nodup-ness of the registry: an id is appended
only when absent. -/
theorem download_nodup (env : ExtractEnv) (f : CanvasFile) (tgt : List String)
    (st : ScrState) (h : st.downloadedIds.Nodup) :
    (download_canvas_file_object env f tgt st).2.downloadedIds.Nodup := by
  by_cases hf : f.id ∈ st.downloadedIds
  · simp [download_canvas_file_object, hf, h]
  · by_cases hok : f.downloadOk = true
    · have hgrow := nodup_append_singleton h hf
      simp [download_canvas_file_object, hf, hok, hgrow]
    · simp [download_canvas_file_object, hf, hok, h]

/-- The loop body keeps registered ids registered and adds no download call
for them. -/
theorem processFileId_regMono (env : ExtractEnv) (html : String)
    (fsd rd : List String) (acc : (List Char × List String) × ScrState)
    (idc : List Char) (i : Nat) (hi : i ∈ acc.2.downloadedIds) :
    i ∈ (processFileId env html fsd rd acc idc).2.downloadedIds ∧
    (processFileId env html fsd rd acc idc).2.downloadCalls.count i =
      acc.2.downloadCalls.count i := by
  simp only [processFileId]
  split
  · split <;> exact ⟨hi, rfl⟩
  · split
    · exact ⟨hi, rfl⟩
    · split
      · exact download_regMono env _ fsd acc.2 i hi
      · exact download_regMono env _ fsd acc.2 i hi
    · exact ⟨hi, rfl⟩

/-- The loop body preserves nodup-ness of the registry. -/
theorem processFileId_nodup (env : ExtractEnv) (html : String)
    (fsd rd : List String) (acc : (List Char × List String) × ScrState)
    (idc : List Char) (h : acc.2.downloadedIds.Nodup) :
    (processFileId env html fsd rd acc idc).2.downloadedIds.Nodup := by
  simp only [processFileId]
  split
  · split <;> exact h
  · split
    · exact h
    · split
      · exact download_nodup env _ fsd acc.2 h
      · exact download_nodup env _ fsd acc.2 h
    · exact h

/-- Over the whole loop, registered ids stay registered without further
download calls. -/
theorem foldl_processFileId_regMono (env : ExtractEnv) (html : String)
    (fsd rd : List String) :
    ∀ (ids : List (List Char)) (acc : (List Char × List String) × ScrState)
      (i : Nat), i ∈ acc.2.downloadedIds →
      i ∈ (ids.foldl (processFileId env html fsd rd) acc).2.downloadedIds ∧
      (ids.foldl (processFileId env html fsd rd) acc).2.downloadCalls.count i =
        acc.2.downloadCalls.count i := by
  intro ids
  induction ids with
  | nil => intro acc i hi; exact ⟨hi, rfl⟩
  | cons idc rest ih =>
      intro acc i hi
      rw [List.foldl_cons]
      obtain ⟨h1, h2⟩ := processFileId_regMono env html fsd rd acc idc i hi
      obtain ⟨h3, h4⟩ := ih _ i h1
      exact ⟨h3, by rw [h4, h2]⟩

/-- The loop preserves nodup-ness of the registry. -/
theorem foldl_processFileId_nodup (env : ExtractEnv) (html : String)
    (fsd rd : List String) :
    ∀ (ids : List (List Char)) (acc : (List Char × List String) × ScrState),
      acc.2.downloadedIds.Nodup →
      (ids.foldl (processFileId env html fsd rd) acc).2.downloadedIds.Nodup := by
  intro ids
  induction ids with
  | nil => intro acc h; exact h
  | cons idc rest ih =>
      intro acc h
      rw [List.foldl_cons]
      exact ih _ (processFileId_nodup env html fsd rd acc idc h)

/-- The link rewriter keeps registered ids registered and adds no download
call for them. -/
theorem extract_regMono (env : ExtractEnv) (html : String)
    (fsd rd : List String) (st : ScrState) (i : Nat)
    (hi : i ∈ st.downloadedIds) :
    i ∈ (extract_and_download_embedded_files env html fsd rd st).2.downloadedIds ∧
    (extract_and_download_embedded_files env html fsd rd st).2.downloadCalls.count i =
      st.downloadCalls.count i := by
  unfold extract_and_download_embedded_files
  split
  · exact ⟨hi, rfl⟩
  · exact foldl_processFileId_regMono env html fsd rd _ _ i hi

/-- The link rewriter preserves nodup-ness of the registry. -/
theorem extract_nodup (env : ExtractEnv) (html : String)
    (fsd rd : List String) (st : ScrState) (h : st.downloadedIds.Nodup) :
    (extract_and_download_embedded_files env html fsd rd st).2.downloadedIds.Nodup := by
  unfold extract_and_download_embedded_files
  split
  · exact h
  · exact foldl_processFileId_nodup env html fsd rd _ _ h

/-- The item renderer keeps registered ids registered and adds no download
call for them. -/
theorem item_regMono (env : ItemEnv) (item : ModuleItemM)
    (mp : List String) (st : ScrState) (i : Nat) (hi : i ∈ st.downloadedIds) :
    i ∈ (process_module_item env item mp st).2.downloadedIds ∧
    (process_module_item env item mp st).2.downloadCalls.count i =
      st.downloadCalls.count i := by
  unfold process_module_item process_item_body
  dsimp only
  repeat' split
  all_goals
    first
    | exact ⟨hi, rfl⟩
    | (apply extract_regMono; exact hi)
    | (apply download_regMono; exact hi)

/-- The item renderer preserves nodup-ness of the registry. -/
theorem item_nodup (env : ItemEnv) (item : ModuleItemM)
    (mp : List String) (st : ScrState) (h : st.downloadedIds.Nodup) :
    (process_module_item env item mp st).2.downloadedIds.Nodup := by
  unfold process_module_item process_item_body
  dsimp only
  repeat' split
  all_goals
    first
    | exact h
    | (apply extract_nodup; exact h)
    | (apply download_nodup; exact h)

/-- Any single run operation keeps registered ids registered and adds no
download call for them. -/
theorem applyOp_regMono (st : ScrState) (op : ScrOp) (i : Nat)
    (hi : i ∈ st.downloadedIds) :
    i ∈ (applyOp st op).downloadedIds ∧
    (applyOp st op).downloadCalls.count i = st.downloadCalls.count i := by
  cases op with
  | opExtract env html fsd rd => exact extract_regMono env html fsd rd st i hi
  | opFetch env f tgt => exact download_regMono env f tgt st i hi
  | opItem env item mp => exact item_regMono env item mp st i hi

/-- Any single run operation preserves nodup-ness of the registry. -/
theorem applyOp_nodup (st : ScrState) (op : ScrOp)
    (h : st.downloadedIds.Nodup) : (applyOp st op).downloadedIds.Nodup := by
  cases op with
  | opExtract env html fsd rd => exact extract_nodup env html fsd rd st h
  | opFetch env f tgt => exact download_nodup env f tgt st h
  | opItem env item mp => exact item_nodup env item mp st h

end Helpers

/-- Every id emitted by the scan loop is a non-empty run of digits: the
capture group of file_id_pattern is one-or-more digits, so a malformed
reference can never reach the processing loop. -/
theorem scanGo_all_digits :
    ∀ (fuel : Nat) (s d : List Char), d ∈ scanGo fuel s →
      d ≠ [] ∧ d.all Char.isDigit = true := by
  intro fuel
  induction fuel with
  | zero => intro s d hd; simp [scanGo] at hd
  | succ fuel ih =>
      intro s d hd
      match s with
      | [] => simp [scanGo] at hd
      | c :: rest =>
          rw [scanGo] at hd
          revert hd
          cases hlit : litEx (("/files/").data) (c :: rest) with
          | none => intro hd; exact ih rest d hd
          | some s1 =>
              intro hd
              simp only at hd
              by_cases hds : s1.takeWhile Char.isDigit = []
              · rw [if_pos hds] at hd
                exact ih rest d hd
              · rw [if_neg hds] at hd
                rcases List.mem_cons.mp hd with h | h
                · subst h
                  refine ⟨hds, ?_⟩
                  rw [List.all_eq_true]
                  intro x hx
                  exact List.mem_takeWhile_imp hx
                · exact ih _ d h

/-- A fragment whose only file reference carries the non-numeric id abc. -/
def malFrag : String := "<a href=\"/files/abc/download\">x</a>"

/-- C4 counterexample: on a fragment referencing the malformed file id abc
the link rewriter logs nothing at all — contradicting the claim that the
malformed identifier is logged as an error.  No download is attempted and
the fragment comes back unchanged, but the log stays empty because the scan
pattern only matches numeric ids, so the error branch is unreachable. -/
theorem c4_malformed_no_error_logged_counterexample :
    (extract_and_download_embedded_files envId malFrag (["m", "_files"])
        (["m", "README.md"]) initState).2.logs = [] ∧
    (extract_and_download_embedded_files envId malFrag (["m", "_files"])
        (["m", "README.md"]) initState).2.downloadCalls = [] ∧
    (extract_and_download_embedded_files envId malFrag (["m", "_files"])
        (["m", "README.md"]) initState).2.fetcherCalls = [] ∧
    (extract_and_download_embedded_files envId malFrag (["m", "_files"])
        (["m", "README.md"]) initState).1.1 = malFrag ∧
    (extract_and_download_embedded_files envId malFrag (["m", "_files"])
        (["m", "README.md"]) initState).1.2 = [] := by
  decide

/-- C4 amended: every id the reference scan extracts is a non-empty digit
run, so a malformed (non-numeric) id never reaches the processing loop: no
download is attempted and the fragment is returned unchanged with an empty
side list, but nothing is logged — the reference is skipped silently, the
ValueError logging branch being unreachable. -/
theorem c4_malformed_reference_skipped_silently :
    (∀ (s d : List Char), d ∈ scanFileIds s → d ≠ [] ∧ d.all Char.isDigit = true) ∧
    (∀ (env : ExtractEnv) (html_content : String)
       (files_subdir module_readme_path : List String) (st : ScrState),
      html_content ≠ "" → pyDedup (scanFileIds html_content.data) = [] →
      extract_and_download_embedded_files env html_content files_subdir
          module_readme_path st =
        ((html_content, []),
         { st with dirsCreated := st.dirsCreated ++ [files_subdir] })) := by
  constructor
  · intro s d hd
    exact scanGo_all_digits s.length s d hd
  · intro env html_content fsd rd st h hscan
    unfold extract_and_download_embedded_files
    simp only [h, if_false, hscan, List.foldl_nil]
    rfl

/-- Witness for C4 amended: a numeric capture is all digits, and the
malformed fragment is passed through untouched apart from the directory
creation. -/
theorem c4_malformed_reference_skipped_silently_witness :
    ((("42").data ≠ [] ∧ (("42").data).all Char.isDigit = true) ∧
     extract_and_download_embedded_files envId malFrag (["m", "_files"])
         (["m", "README.md"]) initState =
       ((malFrag, []),
        { initState with
            dirsCreated := initState.dirsCreated ++ [["m", "_files"]] })) :=
  ⟨c4_malformed_reference_skipped_silently.1 (("/files/42").data) (("42").data)
     (by decide),
   c4_malformed_reference_skipped_silently.2 envId malFrag (["m", "_files"])
     (["m", "README.md"]) initState (by decide) (by decide)⟩

/-- A fragment in which file 42 appears both as an image source and as an
anchor target. -/
def bothFrag : String :=
  "<img src=\"/files/42/preview\"><a href=\"/files/42/download\">doc</a>"

/-- C2 counterexample: on a fragment where id 42 occurs both in an image
source and in an anchor target, the rewriter updates only the image source;
the anchor keeps its remote target and no side-list bullet is emitted,
because the anchor pass is guarded by the absence of an image match on the
original fragment — contradicting the claim that the two passes are
independent. -/
theorem c2_both_contexts_counterexample :
    (extract_and_download_embedded_files envId bothFrag (["m", "_files"])
        (["m", "README.md"]) initState).1.2 = [] ∧
    (extract_and_download_embedded_files envId bothFrag (["m", "_files"])
        (["m", "README.md"]) initState).1.1 =
      "<img src=\"_files/f.pdf\"><a href=\"/files/42/download\">doc</a>" := by
  decide

/-- C2 amended: for a fragment whose single distinct id also matches the
image pattern on the original fragment, the image pass runs alone — the
result is exactly the image substitution, the anchor target is not
rewritten and the side list is empty.  The two passes are mutually
exclusive per id, keyed on the image search over the original fragment. -/
theorem c2_image_context_precludes_anchor_pass (env : ExtractEnv)
    (html_content : String) (files_subdir module_readme_path : List String)
    (st : ScrState) (idc : List Char) (f : CanvasFile)
    (hscan : pyDedup (scanFileIds html_content.data) = [idc])
    (hres : env.getFile (digitsToNat idc) = ResolveResult.found f)
    (himg : imgSearchB idc html_content.data = true)
    (hok : digitsToNat idc ∈ st.downloadedIds ∨ f.downloadOk = true) :
    (extract_and_download_embedded_files env html_content files_subdir
        module_readme_path st).1.2 = [] ∧
    (extract_and_download_embedded_files env html_content files_subdir
        module_readme_path st).1.1 =
      String.mk (imgSubst idc
        (renderPath (relPath (files_subdir ++ [env.sanitize f.display_name])
          (parentDir module_readme_path))).data html_content.data) := by
  have hne : html_content ≠ "" := by
    intro he
    rw [he] at hscan
    have h0 : pyDedup (scanFileIds ("" : String).data) = ([] : List (List Char)) := by
      decide
    rw [h0] at hscan
    exact List.noConfusion hscan
  unfold extract_and_download_embedded_files
  simp only [hne, if_false, hscan, List.foldl_cons, List.foldl_nil]
  unfold processFileId
  by_cases hmem : digitsToNat idc ∈ st.downloadedIds
  · simp only [hmem, if_true, hres, rewriteForId, himg]
    constructor <;> (first | rfl | trivial)
  · simp only [hmem, if_false, hres]
    unfold download_canvas_file_object
    by_cases hfid : f.id ∈ st.downloadedIds
    · simp only [hfid, if_true, rewriteForId, himg]
      constructor <;> (first | rfl | trivial)
    · have hok2 : f.downloadOk = true := hok.resolve_left hmem
      simp only [hfid, if_false, hok2, rewriteForId, himg]
      constructor <;> (first | rfl | trivial)

/-- Witness for C2 amended at the fragment with both contexts. -/
theorem c2_image_context_precludes_anchor_pass_witness :
    (extract_and_download_embedded_files envId bothFrag (["m", "_files"])
        (["m", "README.md"]) initState).1.2 = [] ∧
    (extract_and_download_embedded_files envId bothFrag (["m", "_files"])
        (["m", "README.md"]) initState).1.1 =
      String.mk (imgSubst (("42").data)
        (renderPath (relPath ((["m", "_files"]) ++ [envId.sanitize ("f.pdf")])
          (parentDir (["m", "README.md"])))).data bothFrag.data) :=
  c2_image_context_precludes_anchor_pass envId bothFrag (["m", "_files"])
    (["m", "README.md"]) initState (("42").data) ⟨42, ("f.pdf"), true⟩
    (by decide) (by decide) (by decide) (Or.inr rfl)

/-- A fragment referencing file 42 twice, both times as an anchor. -/
def twoAnchorFrag : String :=
  "<a href=\"/files/42/download?verifier=v\">doc</a> and " ++
  "<a href=\"/files/42/download\">again</a>"

/-- C6: the side list of non-image reference links is deduplicated as a
set, so it never contains duplicate entries, its length is bounded by the
number of distinct ids in the fragment, and a fragment whose only distinct
id is referenced purely in anchor contexts yields exactly one entry for
that id, however many anchors reference it. -/
theorem c6_side_list_dedup (env : ExtractEnv) (html_content : String)
    (files_subdir module_readme_path : List String) (st : ScrState) :
    ((extract_and_download_embedded_files env html_content files_subdir
        module_readme_path st).1.2).Nodup ∧
    ((extract_and_download_embedded_files env html_content files_subdir
        module_readme_path st).1.2).length ≤
      (pyDedup (scanFileIds html_content.data)).length ∧
    (∀ (idc : List Char) (f : CanvasFile),
      pyDedup (scanFileIds html_content.data) = [idc] →
      env.getFile (digitsToNat idc) = ResolveResult.found f →
      imgSearchB idc html_content.data = false →
      (digitsToNat idc ∈ st.downloadedIds ∨ f.downloadOk = true) →
      ((extract_and_download_embedded_files env html_content files_subdir
          module_readme_path st).1.2).length = 1) := by
  refine ⟨?_, ?_, ?_⟩
  · unfold extract_and_download_embedded_files
    split
    · exact List.nodup_nil
    · exact pyDedup_nodup _
  · unfold extract_and_download_embedded_files
    split
    · simp
    · calc (pyDedup (((pyDedup (scanFileIds html_content.data)).foldl
              (processFileId env html_content files_subdir module_readme_path)
              ((html_content.data, []), { st with
                dirsCreated := st.dirsCreated ++ [files_subdir] })).1.2)).length
            ≤ (((pyDedup (scanFileIds html_content.data)).foldl
                (processFileId env html_content files_subdir module_readme_path)
                ((html_content.data, []), { st with
                  dirsCreated := st.dirsCreated ++ [files_subdir] })).1.2).length :=
              pyDedup_length _
        _ ≤ ([] : List String).length + (pyDedup (scanFileIds html_content.data)).length :=
              foldl_processFileId_links_le env html_content files_subdir
                module_readme_path _ _
        _ = (pyDedup (scanFileIds html_content.data)).length := by simp
  · intro idc f hscan hres himg hok
    have hne : html_content ≠ "" := by
      intro he
      rw [he] at hscan
      have h0 : pyDedup (scanFileIds ("" : String).data) = ([] : List (List Char)) := by
        decide
      rw [h0] at hscan
      exact List.noConfusion hscan
    unfold extract_and_download_embedded_files
    simp only [hne, if_false, hscan, List.foldl_cons, List.foldl_nil]
    unfold processFileId
    by_cases hmem : digitsToNat idc ∈ st.downloadedIds
    · simp only [hmem, if_true, hres, rewriteForId, himg]
      simp [pyDedup, pyDedupAux]
    · simp only [hmem, if_false, hres]
      unfold download_canvas_file_object
      by_cases hfid : f.id ∈ st.downloadedIds
      · simp only [hfid, if_true, rewriteForId, himg]
        simp [pyDedup, pyDedupAux]
      · have hok2 : f.downloadOk = true := hok.resolve_left hmem
        simp only [hfid, if_false, hok2, rewriteForId, himg]
        simp [pyDedup, pyDedupAux]

/-- Witness for C6 at a fragment with the same id in two anchors: the side
list has exactly one entry and no duplicates. -/
theorem c6_side_list_dedup_witness :
    ((extract_and_download_embedded_files envId twoAnchorFrag (["m", "_files"])
        (["m", "README.md"]) initState).1.2).Nodup ∧
    ((extract_and_download_embedded_files envId twoAnchorFrag (["m", "_files"])
        (["m", "README.md"]) initState).1.2).length = 1 :=
  ⟨(c6_side_list_dedup envId twoAnchorFrag (["m", "_files"])
      (["m", "README.md"]) initState).1,
   (c6_side_list_dedup envId twoAnchorFrag (["m", "_files"])
      (["m", "README.md"]) initState).2.2 (("42").data) ⟨42, ("f.pdf"), true⟩
     (by decide) (by decide) (by decide) (Or.inr rfl)⟩

/-- An environment resolving files 42 and 7, both downloads succeeding. -/
def envTwo : ExtractEnv :=
  { sanitize := fun s => s, conv := fun s => s,
    getFile := fun n =>
      if n = 42 then ResolveResult.found ⟨42, ("f.pdf"), true⟩
      else if n = 7 then ResolveResult.found ⟨7, ("g.png"), true⟩
      else ResolveResult.notFound }

/-- A fragment with two distinct ids, 42 referenced twice and 7 once. -/
def twoIdFrag : String :=
  "<a href=\"/files/42/download\">a</a><img src=\"/files/7/preview\">" ++
  "<a href=\"/files/42\">b</a>"

/-- C5: over a fragment whose distinct scanned ids are pairwise distinct as
numbers, all fresh (not yet in the registry) and all resolvable to a handle
carrying the same id, the asset fetcher is entered exactly once per
distinct id, regardless of how many tags reference each id. -/
theorem c5_fetcher_called_once_per_distinct_id (env : ExtractEnv)
    (html_content : String) (files_subdir module_readme_path : List String)
    (st : ScrState)
    (hnodup : ((pyDedup (scanFileIds html_content.data)).map digitsToNat).Nodup)
    (hfresh : ∀ idc ∈ pyDedup (scanFileIds html_content.data),
       digitsToNat idc ∉ st.downloadedIds)
    (hres : ∀ idc ∈ pyDedup (scanFileIds html_content.data),
       ∃ f : CanvasFile, env.getFile (digitsToNat idc) = ResolveResult.found f ∧
         f.id = digitsToNat idc) :
    (extract_and_download_embedded_files env html_content files_subdir
        module_readme_path st).2.fetcherCalls.length =
      st.fetcherCalls.length + (pyDedup (scanFileIds html_content.data)).length := by
  by_cases hne : html_content = ""
  · subst hne
    have h0 : pyDedup (scanFileIds ("" : String).data) = ([] : List (List Char)) := by
      decide
    rw [h0]
    simp [extract_and_download_embedded_files]
  · unfold extract_and_download_embedded_files
    simp only [hne, if_false]
    exact foldl_processFileId_fetcher env html_content files_subdir
      module_readme_path (pyDedup (scanFileIds html_content.data))
      ((html_content.data, []),
       { st with dirsCreated := st.dirsCreated ++ [files_subdir] })
      hnodup hfresh hres

/-- Witness for C5: two distinct fresh resolvable ids across three tags
give exactly two fetcher entries. -/
theorem c5_fetcher_called_once_per_distinct_id_witness :
    (extract_and_download_embedded_files envTwo twoIdFrag (["m", "_files"])
        (["m", "README.md"]) initState).2.fetcherCalls.length =
      initState.fetcherCalls.length +
        (pyDedup (scanFileIds twoIdFrag.data)).length :=
  c5_fetcher_called_once_per_distinct_id envTwo twoIdFrag (["m", "_files"])
    (["m", "README.md"]) initState (by decide) (by decide)
    (by
      intro idc h
      have hids : pyDedup (scanFileIds twoIdFrag.data) =
          [("42").data, ("7").data] := by decide
      rw [hids] at h
      rcases List.mem_cons.mp h with h1 | h2
      · subst h1
        exact ⟨⟨42, ("f.pdf"), true⟩, by decide, by decide⟩
      · rcases List.mem_cons.mp h2 with h3 | h4
        · subst h3
          exact ⟨⟨7, ("g.png"), true⟩, by decide, by decide⟩
        · exact absurd h4 (List.not_mem_nil idc))

/-- A fragment referencing file 42 once, as an anchor. -/
def aFrag : String := "<a href=\"/files/42/download\">doc</a>"

/-- First processing of the fragment, for module A. -/
def c1run1 : (String × List String) × ScrState :=
  extract_and_download_embedded_files envId aFrag (["c", "A", "_files"])
    (["c", "A", "README.md"]) initState

/-- Second processing of the same fragment, for module B, after file 42 is
already registered. -/
def c1run2 : (String × List String) × ScrState :=
  extract_and_download_embedded_files envId aFrag (["c", "B", "_files"])
    (["c", "B", "README.md"]) c1run1.2

/-- C1 failing run: when the fragment referencing file 42 is processed a
second time for a different module, the emitted link resolves, against
module B's own location, to the path c/B/_files/f.pdf — but the only file
ever written in the run is c/A/_files/f.pdf, produced by the single
download.  The registry records only ids, not paths, so the already
downloaded branch fabricates a path under the current module that was
never written, violating both halves of the claimed invariant. -/
theorem c1_cross_module_reference_unresolvable :
    c1run2.1.2 = [("* [doc](_files/f.pdf)")] ∧
    parentDir (["c", "B", "README.md"]) ++ [("_files"), ("f.pdf")] =
      [("c"), ("B"), ("_files"), ("f.pdf")] ∧
    c1run2.2.fsWritten = [[("c"), ("A"), ("_files"), ("f.pdf")]] ∧
    ([("c"), ("B"), ("_files"), ("f.pdf")] : List String) ∉ c1run2.2.fsWritten ∧
    c1run2.2.downloadCalls = [42] := by
  decide

/-- C7: the item renderer is total — no fetch failure escapes it.  Every
fragment it returns, for any item and any fetch outcome, ends with the
separator line; and when the content fetch for a Page, File or Assignment
item reports NotFound or Forbidden, the returned fragment carries the
corresponding human-readable failure notice. -/
theorem c7_item_failure_notice_and_separator (env : ItemEnv) (item : ModuleItemM)
    (module_path : List String) (st : ScrState) :
    (∃ pre, (process_module_item env item module_path st).1 = pre ++ "\n---\n\n") ∧
    (item.itype = "Page" → env.getPage item.page_url = Fetched.errNotFound →
      (process_module_item env item module_path st).1 =
        "## " ++ item.title ++ "\n\n" ++ notFoundNotice item.title ++ "\n---\n\n") ∧
    (item.itype = "Page" → env.getPage item.page_url = Fetched.errForbidden →
      (process_module_item env item module_path st).1 =
        "## " ++ item.title ++ "\n\n" ++ forbiddenNotice item.title ++ "\n---\n\n") ∧
    (item.itype = "File" → env.ex.getFile item.content_id = ResolveResult.notFound →
      (process_module_item env item module_path st).1 =
        notFoundNotice item.title ++ "\n---\n\n") ∧
    (item.itype = "File" → env.ex.getFile item.content_id = ResolveResult.forbidden →
      (process_module_item env item module_path st).1 =
        forbiddenNotice item.title ++ "\n---\n\n") ∧
    (item.itype = "Assignment" →
      env.getAssignment item.content_id = Fetched.errNotFound →
      (process_module_item env item module_path st).1 =
        "## Assignment: " ++ item.title ++ "\n\n" ++ notFoundNotice item.title ++
          "\n---\n\n") ∧
    (item.itype = "Assignment" →
      env.getAssignment item.content_id = Fetched.errForbidden →
      (process_module_item env item module_path st).1 =
        "## Assignment: " ++ item.title ++ "\n\n" ++ forbiddenNotice item.title ++
          "\n---\n\n") := by
  refine ⟨?_, ?_, ?_, ?_, ?_, ?_, ?_⟩
  · unfold process_module_item
    exact ⟨_, rfl⟩
  · intro h1 h2
    unfold process_module_item process_item_body
    dsimp only
    rw [if_pos h1, h2]
  · intro h1 h2
    unfold process_module_item process_item_body
    dsimp only
    rw [if_pos h1, h2]
  · intro h1 h2
    unfold process_module_item process_item_body
    dsimp only
    rw [if_neg (fun hc => absurd (h1 ▸ hc) (by decide)), if_pos h1, h2]
  · intro h1 h2
    unfold process_module_item process_item_body
    dsimp only
    rw [if_neg (fun hc => absurd (h1 ▸ hc) (by decide)), if_pos h1, h2]
  · intro h1 h2
    unfold process_module_item process_item_body
    dsimp only
    rw [if_neg (fun hc => absurd (h1 ▸ hc) (by decide)),
        if_neg (fun hc => absurd (h1 ▸ hc) (by decide)),
        if_neg (fun hc => absurd (h1 ▸ hc) (by decide)),
        if_neg (fun hc => absurd (h1 ▸ hc) (by decide)), if_pos h1, h2]
  · intro h1 h2
    unfold process_module_item process_item_body
    dsimp only
    rw [if_neg (fun hc => absurd (h1 ▸ hc) (by decide)),
        if_neg (fun hc => absurd (h1 ▸ hc) (by decide)),
        if_neg (fun hc => absurd (h1 ▸ hc) (by decide)),
        if_neg (fun hc => absurd (h1 ▸ hc) (by decide)), if_pos h1, h2]

/-- Environment whose content fetches all report NotFound. -/
def itemEnvNF : ItemEnv :=
  { ex := envId, convMd := fun s => s,
    getPage := fun _ => Fetched.errNotFound,
    getAssignment := fun _ => Fetched.errNotFound }

/-- A Page module item for the C7 witness. -/
def pageItem : ModuleItemM :=
  { itype := "Page", title := "Intro", page_url := "intro", content_id := 0,
    external_url := "", html_url := none }

/-- Witness for C7: a Page whose fetch reports NotFound yields the notice
and ends with the separator. -/
theorem c7_item_failure_notice_and_separator_witness :
    (∃ pre, (process_module_item itemEnvNF pageItem (["m"]) initState).1 =
      pre ++ "\n---\n\n") ∧
    (process_module_item itemEnvNF pageItem (["m"]) initState).1 =
      "## " ++ pageItem.title ++ "\n\n" ++ notFoundNotice pageItem.title ++
        "\n---\n\n" :=
  ⟨(c7_item_failure_notice_and_separator itemEnvNF pageItem (["m"]) initState).1,
   (c7_item_failure_notice_and_separator itemEnvNF pageItem (["m"])
      initState).2.1 rfl rfl⟩

/-- C3: across an arbitrary run (any sequence of link rewrites, direct
fetches and item renderings), the registry stays duplicate-free, so every
id is recorded — hence successfully downloaded — at most once; and once an
id is in the registry, no later operation makes any download call for it:
reprocessing a fragment referencing it never downloads it again. -/
theorem c3_at_most_one_download_per_id (ops : List ScrOp) (st : ScrState)
    (i : Nat) (hnd : st.downloadedIds.Nodup) :
    (runOps ops st).downloadedIds.Nodup ∧
    (runOps ops st).downloadedIds.count i ≤ 1 ∧
    (i ∈ st.downloadedIds →
      i ∈ (runOps ops st).downloadedIds ∧
      (runOps ops st).downloadCalls.count i = st.downloadCalls.count i) := by
  induction ops generalizing st with
  | nil =>
      refine ⟨hnd, List.nodup_iff_count_le_one.mp hnd i, ?_⟩
      intro hi
      exact ⟨hi, rfl⟩
  | cons op rest ih =>
      have hrw : runOps (op :: rest) st = runOps rest (applyOp st op) := rfl
      rw [hrw]
      have hnd1 : (applyOp st op).downloadedIds.Nodup := applyOp_nodup st op hnd
      obtain ⟨ha, hb, hc⟩ := ih (applyOp st op) hnd1
      refine ⟨ha, hb, ?_⟩
      intro hi
      obtain ⟨h1, h2⟩ := applyOp_regMono st op i hi
      obtain ⟨h3, h4⟩ := hc h1
      exact ⟨h3, by rw [h4, h2]⟩

/-- Starting state for the C3 witness: file 42 already registered. -/
def c3st : ScrState := { initState with downloadedIds := [42] }

/-- Operations for the C3 witness: rewrite a fragment referencing file 42,
then fetch file 42 directly. -/
def c3ops : List ScrOp :=
  [ScrOp.opExtract envId aFrag (["c", "A", "_files"]) (["c", "A", "README.md"]),
   ScrOp.opFetch envId ⟨42, ("f.pdf"), true⟩ (["c", "A", "_files"])]

/-- Witness for C3: with 42 already registered, neither reprocessing the
fragment nor refetching the file makes a download call. -/
theorem c3_at_most_one_download_per_id_witness :
    (c3st.downloadedIds.Nodup) ∧
    ((runOps c3ops c3st).downloadedIds.Nodup ∧
     (runOps c3ops c3st).downloadedIds.count 42 ≤ 1 ∧
     (42 ∈ c3st.downloadedIds →
       42 ∈ (runOps c3ops c3st).downloadedIds ∧
       (runOps c3ops c3st).downloadCalls.count 42 = c3st.downloadCalls.count 42)) :=
  ⟨by decide, c3_at_most_one_download_per_id c3ops c3st 42 (by decide)⟩

/-- C8: the link rewriter maps an empty fragment to the unchanged fragment
with an empty side list and leaves the state untouched: no directory is
created and no download happens. -/
theorem c8_empty_fragment_no_effect (env : ExtractEnv) (html_content : String)
    (files_subdir module_readme_path : List String) (st : ScrState)
    (h : html_content = "") :
    extract_and_download_embedded_files env html_content files_subdir
      module_readme_path st = ((html_content, []), st) := by
  subst h
  simp [extract_and_download_embedded_files]

/-- Witness for C8 at the empty fragment. -/
theorem c8_empty_fragment_no_effect_witness :
    (("" : String) = "") ∧
    extract_and_download_embedded_files envId ("") (["m", "_files"])
      (["m", "README.md"]) initState = ((("" : String), []), initState) :=
  ⟨rfl, c8_empty_fragment_no_effect envId ("") (["m", "_files"])
    (["m", "README.md"]) initState rfl⟩

/-- C9: when a download fails, the fetcher returns none, the registry and
the written files are unchanged, and a later fetch of the same identifier
attempts the download again rather than returning a stale path. -/
theorem c9_failed_download_not_recorded (env : ExtractEnv) (f : CanvasFile)
    (tgt : List String) (st : ScrState)
    (hmem : f.id ∉ st.downloadedIds) (hfail : f.downloadOk = false) :
    (download_canvas_file_object env f tgt st).1 = none ∧
    (download_canvas_file_object env f tgt st).2.downloadedIds = st.downloadedIds ∧
    (download_canvas_file_object env f tgt st).2.fsWritten = st.fsWritten ∧
    (∀ (g : CanvasFile) (tgt2 : List String), g.id = f.id →
      (download_canvas_file_object env g tgt2
          (download_canvas_file_object env f tgt st).2).2.downloadCalls =
        (download_canvas_file_object env f tgt st).2.downloadCalls ++ [g.id]) := by
  refine ⟨?_, ?_, ?_, ?_⟩
  · simp [download_canvas_file_object, hmem, hfail]
  · simp [download_canvas_file_object, hmem, hfail]
  · simp [download_canvas_file_object, hmem, hfail]
  · intro g tgt2 hg
    simp only [download_canvas_file_object, hmem, if_false, hfail, hg]
    simp [hmem]
    split <;> rfl

/-- Witness for C9: file 43 resolves but its download fails. -/
theorem c9_failed_download_not_recorded_witness :
    ((43 : Nat) ∉ initState.downloadedIds) ∧
    ((CanvasFile.mk 43 ("g.pdf") false).downloadOk = false) ∧
    ((download_canvas_file_object envId (CanvasFile.mk 43 ("g.pdf") false)
        (["m", "_files"]) initState).1 = none ∧
     (download_canvas_file_object envId (CanvasFile.mk 43 ("g.pdf") false)
        (["m", "_files"]) initState).2.downloadedIds = initState.downloadedIds ∧
     (download_canvas_file_object envId (CanvasFile.mk 43 ("g.pdf") false)
        (["m", "_files"]) initState).2.fsWritten = initState.fsWritten ∧
     (∀ (g : CanvasFile) (tgt2 : List String), g.id = 43 →
       (download_canvas_file_object envId g tgt2
           (download_canvas_file_object envId (CanvasFile.mk 43 ("g.pdf") false)
             (["m", "_files"]) initState).2).2.downloadCalls =
         (download_canvas_file_object envId (CanvasFile.mk 43 ("g.pdf") false)
           (["m", "_files"]) initState).2.downloadCalls ++ [g.id])) :=
  ⟨by decide, rfl,
   c9_failed_download_not_recorded envId (CanvasFile.mk 43 ("g.pdf") false)
     (["m", "_files"]) initState (by decide) rfl⟩

/-- C10: processing any non-empty fragment records the creation of the
module files subdirectory, even when the fragment contains no file
reference at all, in which case the directory creation is the only state
change and the fragment comes back unchanged. -/
theorem c10_nonempty_fragment_creates_dir (env : ExtractEnv) (html_content : String)
    (files_subdir module_readme_path : List String) (st : ScrState)
    (h : html_content ≠ "") :
    (extract_and_download_embedded_files env html_content files_subdir
        module_readme_path st).2.dirsCreated = st.dirsCreated ++ [files_subdir] ∧
    (pyDedup (scanFileIds html_content.data) = [] →
      extract_and_download_embedded_files env html_content files_subdir
          module_readme_path st =
        ((html_content, []),
         { st with dirsCreated := st.dirsCreated ++ [files_subdir] })) := by
  constructor
  · unfold extract_and_download_embedded_files
    simp only [h, if_false]
    rw [foldl_processFileId_dirsCreated]
  · intro hscan
    unfold extract_and_download_embedded_files
    simp only [h, if_false, hscan, List.foldl_nil]
    rfl

/-- Witness for C10: a fragment with markup but no file reference. -/
theorem c10_nonempty_fragment_creates_dir_witness :
    (("<p>hello</p>" : String) ≠ "") ∧
    (extract_and_download_embedded_files envId ("<p>hello</p>") (["m", "_files"])
        (["m", "README.md"]) initState).2.dirsCreated =
      initState.dirsCreated ++ [["m", "_files"]] ∧
    (pyDedup (scanFileIds ("<p>hello</p>").data) = [] →
      extract_and_download_embedded_files envId ("<p>hello</p>") (["m", "_files"])
          (["m", "README.md"]) initState =
        ((("<p>hello</p>" : String), []),
         { initState with dirsCreated := initState.dirsCreated ++ [["m", "_files"]] })) :=
  ⟨by decide,
   c10_nonempty_fragment_creates_dir envId ("<p>hello</p>") (["m", "_files"])
     (["m", "README.md"]) initState (by decide)⟩

end CanvasScraper
